import Mathlib

/-!
Verification development for the cost-of-living agent repository.

The per-city adaptive evidence-gathering loop is embedded shallowly:

* `src/strategies.js` — strategy catalog, `selectStrategy`,
  `adaptSearchBasedOnResults`, `generateAdaptations`;
* `src/context.js` — `createAgentContext`, `addError`, `evaluateGoals`,
  `recordStrategy`;
* `src/search.js` — `calculateDataQualityScore`;
* `src/scoring.js` — `getPPPFactor`;
* `src/agent.js` — `perceive`, `reason`, `reflect`, `agentTick`.

External collaborators (the SERP retrieval call, the LLM extraction call,
the on-disk cache) are modelled as explicit parameters: a call either
returns a value or throws, which is represented with `Except`.  JavaScript
numbers are modelled as `ℚ` (the arithmetic in the embedded code is exact
decimal arithmetic), counters as `ℕ`.  Non-integer decimal literals are
written with `mkRat` so that terms evaluate inside the kernel.
Wall-clock timestamps (fields such as `started_at`, `timestamp`) carry no
behavioural content and are not modelled; the `completed_at` stamp that
`agentTick` writes on exit is modelled as a boolean completion flag.
-/

/-- Names of the six search strategies of `src/strategies.js`.  The set is
closed, so the JavaScript strings become an enumeration. -/
inductive SName where
  | numbeo_focused
  | expatistan_focused
  | reddit_local
  | multi_source
  | government_stats
  | expat_forums
deriving DecidableEq

/-- Adaptation tags produced by `generateAdaptations` and consumed by
`perceive` and `agentTick`. -/
inductive Adaptation where
  | expand_search_terms
  | alternative_category_approach
  | try_local_sources
deriving DecidableEq

/-- A cost category descriptor from `config.js` (`costCategories`).  The
`searchTemplate` field is never read by the embedded core and is omitted. -/
structure Category where
  name : String
  displayName : String
deriving DecidableEq

/-- A search strategy from `SEARCH_STRATEGIES` in `src/strategies.js`.
The `buildQuery` closure only feeds the external retrieval collaborator,
which is abstracted away, so it is not part of the record (keeping the
record function-free also gives it decidable equality, matching the
reference equality JavaScript uses on the singleton strategy objects). -/
structure Strategy where
  name : SName
  confidence_modifier : ℚ
  sites : List String
deriving DecidableEq

def numbeo_focused : Strategy :=
  { name := SName.numbeo_focused, confidence_modifier := 1, sites := ["numbeo.com"] }

def expatistan_focused : Strategy :=
  { name := SName.expatistan_focused, confidence_modifier := mkRat 9 10, sites := ["expatistan.com"] }

def reddit_local : Strategy :=
  { name := SName.reddit_local, confidence_modifier := mkRat 8 10, sites := ["reddit.com"] }

def multi_source : Strategy :=
  { name := SName.multi_source, confidence_modifier := mkRat 11 10,
    sites := ["numbeo.com", "expatistan.com", "livingcost.org"] }

def government_stats : Strategy :=
  { name := SName.government_stats, confidence_modifier := mkRat 12 10, sites := ["gov", "statistics"] }

def expat_forums : Strategy :=
  { name := SName.expat_forums, confidence_modifier := mkRat 7 10, sites := ["expat", "forum"] }

/-- `Object.values(SEARCH_STRATEGIES)`, in the insertion order of the
object literal in `src/strategies.js`. -/
def SEARCH_STRATEGIES : List Strategy :=
  [numbeo_focused, expatistan_focused, reddit_local, multi_source, government_stats, expat_forums]

/-- The fixed `strategyOrder` list from step 1.3 of `selectStrategy`. -/
def strategyOrder : List Strategy :=
  [numbeo_focused, reddit_local, government_stats, expatistan_focused, expat_forums]

/-- `CONFIG.costCategories` from `config.js`. -/
def CONFIG_costCategories : List Category :=
  [{ name := "rent_1br", displayName := "1BR Apartment Rent" },
   { name := "groceries", displayName := "Monthly Groceries" },
   { name := "transportation", displayName := "Public Transportation Monthly Pass" },
   { name := "utilities", displayName := "Monthly Utilities" },
   { name := "internet", displayName := "Internet Speed & Cost" }]

/-- One entry of the hardcoded `CONFIG.ppp` table (the `year` string is
never read). -/
structure PPPEntry where
  country : String
  value : ℚ

/-- `CONFIG.ppp` from `config.js`. -/
def CONFIG_ppp : List PPPEntry :=
  [{ country := "Germany", value := mkRat 721158 1000000 },
   { country := "Portugal", value := mkRat 547768 1000000 },
   { country := "Thailand", value := mkRat 125736324625 10000000000 },
   { country := "Indonesia", value := mkRat 474333744682 100000000 },
   { country := "United States", value := 1 }]

/-- One entry of `memory.attempted_strategies` as pushed by
`recordStrategy` (`context.js`); the wall-clock `timestamp` is omitted. -/
structure AttemptedStrategy where
  strategy : SName
  category : String
  success : Bool
  confidence : ℚ
  iteration : ℕ
deriving DecidableEq

/-- `context.memory` from `createAgentContext`.  The two by-category maps
are plain objects in JavaScript, read with a `|| []` default; they are
modelled as total functions defaulting to `[]`.  The unused
`category_patterns` object is never read or written and is omitted.
`failed_strategies` is NOT created by `createAgentContext`: the only
assignment to it in the repository is `context.memory.failed_strategies = []`
in `agentTick` (`agent.js` line 316), and nothing ever reads it; it is
modelled as an `Option` that starts out `none`. -/
structure AgentMemory where
  attempted_strategies : List AttemptedStrategy
  failed_strategies_by_category : String → List SName
  successful_strategies_by_category : String → List SName
  failed_strategies : Option (List SName)

/-- `context.state` from `createAgentContext`.  `current_adaptations` is
`undefined` until `agentTick` first assigns it; the code only ever calls
`.includes` on it behind an optional chain, so `undefined` behaves exactly
like the empty list and it is modelled as a list starting at `[]`. -/
structure AgentState where
  iteration : ℕ
  max_iterations : ℕ
  confidence : ℚ
  completeness : ℚ
  goals_met : Bool
  current_adaptations : List Adaptation

/-- `context.goals` from `createAgentContext`. -/
structure AgentGoals where
  min_acceptable_confidence : ℚ
  confidence_target : ℚ
  completeness_target : ℚ

/-- One entry of `context.errors` as pushed by `addError` (`context.js`);
the wall-clock `timestamp` is omitted. -/
structure AgentError where
  phase : String
  message : String
  category : Option String

/-- Per-category perception record: the part of
`buildPerceptionFromSearchData` output that downstream code reads,
together with the `confidence_modifier` / `strategy_used` metadata that
`perceive` stamps on it. -/
structure CategoryPerception where
  category : String
  organic_results_count : ℕ
  data_quality_score : ℕ
  confidence_modifier : ℚ
  strategy_used : SName

/-- The `metadata` object of the perception bundle built by `perceive`. -/
structure PerceptionMetadata where
  total_organic_results : ℕ
  average_data_quality_score : ℚ
  categories_searched : ℕ
  successful_categories : ℕ
  data_source : String
  agent_iteration : ℕ

/-- The perception bundle `perceive` stores in `context.perception`
(`category_searches` is a string-keyed object, modelled as an association
list). -/
structure Perception where
  city : String
  country : String
  search_strategy : String
  category_searches : List (String × CategoryPerception)
  metadata : PerceptionMetadata

/-- A structured per-category cost record (`extractCostData` output after
`reason` stamps `strategy_used` on it).  Fields the embedded core never
branches on (`currency`, `source`, `context`, `notes`) are omitted. -/
structure CostCategoryResult where
  category : String
  usd_amount : Option ℚ
  confidence : ℚ
  strategy_used : Option SName
  internet_speed_mbps : Option ℚ
deriving DecidableEq

/-- Output of `calculatePPPAdjustedCosts` / the fallback `ppp_analysis`
object in `reason` (`original` and `ppp_adjusted` are string-keyed
objects, modelled as association lists). -/
structure PPPAnalysis where
  original : List (String × ℚ)
  ppp_adjusted : List (String × ℚ)
  ppp_factor : ℚ
  explanation : String

/-- The `overall_assessment` object built by `reason`. -/
structure OverallAssessment where
  data_availability : String
  source_reliability : String
  cost_level : Option String
  summary : String

/-- The `cost_analysis` object built by `reason`. -/
structure CostAnalysis where
  city : String
  country : String
  cost_categories : List CostCategoryResult
  ppp_analysis : PPPAnalysis
  overall_assessment : OverallAssessment
  total_confidence : ℚ

/-- The reasoning record `reason` stores in `context.reasoning`.  The
success path carries `agent_iteration` and no `error`; the fallback path
carries `error` and no `agent_iteration`, hence both are `Option`. -/
structure Reasoning where
  city : String
  country : String
  cost_analysis : CostAnalysis
  sources_analyzed : ℕ
  search_strategy : String
  data_quality_score : ℚ
  reasoning_model : String
  agent_iteration : Option ℕ
  remote_work_score : ℚ
  error : Option String

/-- `context.metadata`: only the completion stamp written by `agentTick`
has behavioural content (`completed_at` flips from `null` to a value). -/
structure AgentMetadata where
  completed : Bool

/-- The whole per-city agent context created by `createAgentContext`. -/
structure AgentContext where
  city : String
  country : String
  perception : Option Perception
  reasoning : Option Reasoning
  errors : List AgentError
  state : AgentState
  goals : AgentGoals
  memory : AgentMemory
  metadata : AgentMetadata

/-- A `{ name, country }` entry of `CONFIG.cities`. -/
structure CityObj where
  name : String
  country : String

/-- `createAgentContext` from `context.js`. -/
def createAgentContext (cityObj : CityObj) : AgentContext :=
  { city := cityObj.name,
    country := cityObj.country,
    perception := none,
    reasoning := none,
    errors := [],
    state :=
      { iteration := 0,
        max_iterations := 3,
        confidence := 0,
        completeness := 0,
        goals_met := false,
        current_adaptations := [] },
    goals :=
      { min_acceptable_confidence := 50,
        confidence_target := 75,
        completeness_target := mkRat 8 10 },
    memory :=
      { attempted_strategies := [],
        failed_strategies_by_category := fun _ => [],
        successful_strategies_by_category := fun _ => [],
        failed_strategies := none },
    metadata := { completed := false } }

/-- `addError` from `context.js`. -/
def addError (context : AgentContext) (phase : String) (message : String)
    (category : Option String) : AgentContext :=
  { context with
    errors := context.errors ++ [{ phase := phase, message := message, category := category }] }

/-- The record returned by `evaluateGoals`. -/
structure GoalEvaluation where
  confidence_met : Bool
  completeness_met : Bool
  min_acceptable : Bool
  goals_met : Bool
  should_retry : Bool

/-- `evaluateGoals` from `context.js`.  The JavaScript function also
mutates `context.state.goals_met`, so the embedding returns the updated
context alongside the evaluation record. -/
def evaluateGoals (context : AgentContext) : GoalEvaluation × AgentContext :=
  let confidence_met := decide (context.state.confidence ≥ context.goals.confidence_target)
  let completeness_met := decide (context.state.completeness ≥ context.goals.completeness_target)
  let min_acceptable := decide (context.state.confidence ≥ context.goals.min_acceptable_confidence)
  let goals_met := confidence_met && completeness_met
  let context := { context with state := { context.state with goals_met := goals_met } }
  ({ confidence_met := confidence_met,
     completeness_met := completeness_met,
     min_acceptable := min_acceptable,
     goals_met := goals_met,
     should_retry := !goals_met
       && decide (context.state.iteration < context.state.max_iterations)
       && min_acceptable },
   context)

/-- `recordStrategy` from `context.js`: push one log entry, then append
the strategy name to exactly one of the two per-category lists, skipping
the append when the name is already present.  (The JavaScript
"initialize the array if absent" steps are identity here because the
modelled maps already default to `[]`.) -/
def recordStrategy (context : AgentContext) (strategyName : SName) (category : String)
    (success : Bool) (confidence : ℚ) : AgentContext :=
  let memory := context.memory
  let memory :=
    { memory with
      attempted_strategies := memory.attempted_strategies ++
        [({ strategy := strategyName, category := category, success := success,
            confidence := confidence, iteration := context.state.iteration } : AttemptedStrategy)] }
  let memory : AgentMemory :=
    if success then
      { memory with
        successful_strategies_by_category := fun c =>
          if c = category then
            let current := memory.successful_strategies_by_category category
            if strategyName ∈ current then current else current ++ [strategyName]
          else memory.successful_strategies_by_category c }
    else
      { memory with
        failed_strategies_by_category := fun c =>
          if c = category then
            let current := memory.failed_strategies_by_category category
            if strategyName ∈ current then current else current ++ [strategyName]
          else memory.failed_strategies_by_category c }
  { context with memory := memory }

/-- The `availableStrategies` computation at the top of `selectStrategy`
(`strategies.js`): catalog strategies whose name has not failed for this
category. -/
def availableStrategies (context : AgentContext) (categoryName : String) : List Strategy :=
  SEARCH_STRATEGIES.filter fun strategy =>
    decide (strategy.name ∉ context.memory.failed_strategies_by_category categoryName)

/-- `selectStrategy` from `strategies.js`.  `availableStrategies[0]` in
the final fallback is `headD`; its default is never reached because that
branch is guarded by `available.length = 0` being false. -/
def selectStrategy (context : AgentContext) (category : Category) : Strategy :=
  let categoryName := category.name
  let categorySuccessfulStrategies := context.memory.successful_strategies_by_category categoryName
  let available := availableStrategies context categoryName
  if available.length = 0 then
    multi_source
  else
    match available.find? (fun strategy => decide (strategy.name ∈ categorySuccessfulStrategies)) with
    | some successfulStrategy => successfulStrategy
    | none =>
      if context.state.iteration = 0 then
        multi_source
      else
        match strategyOrder.find? (fun strategy => decide (strategy ∈ available)) with
        | some nextStrategy => nextStrategy
        | none => available.headD multi_source

/-- The record returned by `adaptSearchBasedOnResults`. -/
structure AdaptationAnalysis where
  needs_retry : Bool
  suggested_adaptations : List Adaptation

/-- `generateAdaptations` from `strategies.js` (the `context` argument is
unused there as well). -/
def generateAdaptations (context : AgentContext)
    (lowConfidenceCategories : List CostCategoryResult) : List Adaptation :=
  let adaptations : List Adaptation := []
  let adaptations :=
    if lowConfidenceCategories.length > 2 then adaptations ++ [Adaptation.expand_search_terms]
    else adaptations
  let adaptations :=
    if lowConfidenceCategories.length > 0 then
      adaptations ++ [Adaptation.alternative_category_approach, Adaptation.try_local_sources]
    else adaptations
  adaptations

/-- `adaptSearchBasedOnResults` from `strategies.js` (the
`highConfidenceCategories` local is computed and never used in the
source, so it is not modelled). -/
def adaptSearchBasedOnResults (context : AgentContext)
    (results : List CostCategoryResult) : AdaptationAnalysis :=
  let lowConfidenceCategories := results.filter fun r => decide (r.confidence < 60)
  { needs_retry :=
      decide ((lowConfidenceCategories.length : ℚ) > (results.length : ℚ) * mkRat 5 10),
    suggested_adaptations := generateAdaptations context lowConfidenceCategories }

/-- One cleaned organic search result (from
`buildPerceptionFromSearchData` in `src/search.js`); only `display_link`
is read by the quality scorer, and it can be absent. -/
structure OrganicResult where
  title : String
  description : String
  link : String
  display_link : Option String

/-- The cleaned `knowledge` object (present when Google returned a
knowledge panel). -/
structure Knowledge where
  description : String
  facts : List (String × String)

/-- The `cleanedGoogleSearch` object that `calculateDataQualityScore`
receives. -/
structure CleanedSearch where
  organic : List OrganicResult
  knowledge : Option Knowledge

/-- Whether the character segment `pattern` occurs contiguously at the
head of `s` (helper for the JavaScript `String.prototype.includes`). -/
def segMatchesHere : List Char → List Char → Bool
  | _, [] => true
  | [], _ :: _ => false
  | c :: cs, p :: ps => decide (c = p) && segMatchesHere cs ps

/-- JavaScript `s.includes(pattern)`: `pattern` occurs contiguously
somewhere in `s`. -/
def stringIncludes (s pattern : String) : Bool :=
  go s.data pattern.data
where
  go : List Char → List Char → Bool
    | s, p => segMatchesHere s p ||
        match s with
        | [] => false
        | _ :: cs => go cs p

/-- The trusted-domain test from `calculateDataQualityScore`:
`item.display_link?.includes` tested against numbeo, expatistan and livingcost. -/
def isRelevantSource (item : OrganicResult) : Bool :=
  match item.display_link with
  | some link =>
      stringIncludes link "numbeo" || stringIncludes link "expatistan" ||
        stringIncludes link "livingcost"
  | none => false

/-- `calculateDataQualityScore` from `src/search.js`: 5 points per
organic result capped at 50, 20 points for a knowledge panel, 10 points
per trusted-source result capped at 30, total capped at 100. -/
def calculateDataQualityScore (searchData : CleanedSearch) : ℕ :=
  let score := 0
  let score := score + min (searchData.organic.length * 5) 50
  let score := score + (if searchData.knowledge.isSome then 20 else 0)
  let relevantSources := (searchData.organic.filter isRelevantSource).length
  let score := score + min (relevantSources * 10) 30
  min score 100

/-- `getPPPFactor` from `src/scoring.js`: look the country up in the PPP
table, defaulting to 1.0. -/
def getPPPFactor (country : String) (pppData : List PPPEntry) : ℚ :=
  match pppData.find? (fun p => decide (p.country = country)) with
  | some pppEntry => pppEntry.value
  | none => 1

/-- Mark a cached perception bundle as coming from the cache:
the `data_source = "cached_data"` assignment in `perceive`. -/
def markCached (cachedPerception : Perception) : Perception :=
  { cachedPerception with
    metadata := { cachedPerception.metadata with data_source := "cached_data" } }

/-- Accumulator for the per-category loop inside `perceive`, holding the
JavaScript locals of the same names (plus the threaded context, which the
loop mutates through `addError` / `recordStrategy` on failure). -/
structure PerceiveAcc where
  context : AgentContext
  categorySearchResults : List (String × CategoryPerception)
  totalOrganicResults : ℕ
  totalQualityScore : ℕ
  successfulCategories : ℕ

/-- One round of the per-category loop inside `perceive`
(`agent.js` lines 32-78).  The external retrieval call together with
`buildPerceptionFromSearchData` (steps 3-4) is the collaborator `search`:
it either yields a cleaned per-category bundle or throws.  On success the
strategy metadata is stamped on the bundle (step 5) and the totals are
updated; on failure an error is recorded and the attempted strategy is
recorded as failed with confidence 0, and the loop continues. -/
def perceiveCategoryStep (search : Category → Except String CategoryPerception)
    (acc : PerceiveAcc) (category : Category) : PerceiveAcc :=
  let strategy := selectStrategy acc.context category
  match search category with
  | Except.ok raw =>
      let categoryPerception :=
        { raw with
          confidence_modifier := strategy.confidence_modifier,
          strategy_used := strategy.name }
      { acc with
        categorySearchResults := acc.categorySearchResults ++ [(category.name, categoryPerception)],
        totalOrganicResults := acc.totalOrganicResults + categoryPerception.organic_results_count,
        totalQualityScore := acc.totalQualityScore + categoryPerception.data_quality_score,
        successfulCategories := acc.successfulCategories + 1 }
  | Except.error msg =>
      let context := addError acc.context "perception"
        ("Category search failed: " ++ msg) (some category.name)
      let context := recordStrategy context strategy.name category.name false 0
      { acc with context := context }

/-- `perceive` from `src/agent.js`.  The cache collaborator
(`hasCachedData` + `loadCachedData`) is the `cache` argument: `some`
exactly when a valid, unexpired, non-null cached perception exists, in
which case `perceive` marks it as cached, stores it in
`context.perception` and returns at once.  Otherwise it runs the
per-category loop, builds the fresh perception bundle, saves it to the
cache (a no-op here: `saveCacheData` is fire-and-forget and best-effort)
and recomputes `state.completeness`. -/
def perceive (cache : Option Perception)
    (search : Category → Except String CategoryPerception)
    (context : AgentContext) : AgentContext :=
  match cache with
  | some cachedPerception =>
      { context with perception := some (markCached cachedPerception) }
  | none =>
      let acc := CONFIG_costCategories.foldl (perceiveCategoryStep search)
        { context := context, categorySearchResults := [], totalOrganicResults := 0,
          totalQualityScore := 0, successfulCategories := 0 }
      let perception : Perception :=
        { city := context.city,
          country := context.country,
          search_strategy := "adaptive_agentic",
          category_searches := acc.categorySearchResults,
          metadata :=
            { total_organic_results := acc.totalOrganicResults,
              average_data_quality_score :=
                (acc.totalQualityScore : ℚ) / (max acc.successfulCategories 1 : ℕ),
              categories_searched := CONFIG_costCategories.length,
              successful_categories := acc.successfulCategories,
              data_source := "fresh_serp_calls",
              agent_iteration := acc.context.state.iteration } }
      let context := acc.context
      let context := { context with perception := some perception }
      let completeness := (acc.successfulCategories : ℚ) / (CONFIG_costCategories.length : ℚ)
      { context with state := { context.state with completeness := completeness } }

/-- The fallback reasoning object built in the `catch` block of `reason`
(`agent.js` lines 227-256).  The JavaScript `?.value || 1.0` PPP lookup
coincides with `getPPPFactor` (no table entry has value 0). -/
def fallbackReasoning (context : AgentContext) (errorMessage : String) : Reasoning :=
  { city := context.city,
    country := context.country,
    cost_analysis :=
      { city := context.city,
        country := context.country,
        cost_categories := [],
        ppp_analysis :=
          { original := [],
            ppp_adjusted := [],
            ppp_factor := getPPPFactor context.country CONFIG_ppp,
            explanation := "Error in analysis" },
        overall_assessment :=
          { data_availability := "poor",
            source_reliability := "low",
            cost_level := none,
            summary := context.city ++ " remote work analysis failed due to data collection issues." },
        total_confidence := 0 },
    remote_work_score := 0,
    sources_analyzed :=
      (context.perception.map fun p => p.metadata.total_organic_results).getD 0,
    search_strategy := "adaptive_agentic",
    data_quality_score :=
      (context.perception.map fun p => p.metadata.average_data_quality_score).getD 0,
    reasoning_model := "error-fallback",
    agent_iteration := none,
    error := some errorMessage }

/-- `reason` from `src/agent.js`.  The `try` block (lines 121-222) calls
the external extraction and summary collaborators for every category, so
its outcome is the collaborator parameter `body`: on success it yields
the context as mutated inside the block (memory updates from
`recordStrategy`, per-category errors) together with the built reasoning
record; on an unexpected throw it yields the error message together with
the context as mutated up to the throw.  `reason` itself contributes the
guard on missing perception (which rethrows), the storing of the
reasoning record, the confidence update, and the `catch` handler that
substitutes `fallbackReasoning` instead of propagating. -/
def reason
    (body : AgentContext → Except (String × AgentContext) (AgentContext × Reasoning))
    (context : AgentContext) : Except String AgentContext :=
  if context.perception.isNone then
    Except.error "No perception data available for reasoning"
  else
    match body context with
    | Except.ok (contextAfter, reasoningResult) =>
        let contextAfter := { contextAfter with reasoning := some reasoningResult }
        Except.ok
          { contextAfter with
            state := { contextAfter.state with
              confidence := reasoningResult.cost_analysis.total_confidence } }
    | Except.error (msg, contextAtThrow) =>
        let contextAtThrow := addError contextAtThrow "reasoning"
          ("Reasoning failure: " ++ msg) none
        Except.ok
          { contextAtThrow with reasoning := some (fallbackReasoning contextAtThrow msg) }

/-- The record returned by `reflect` (`should_continue`, `adaptations`,
and — only on the retry path — `needs_retry`). -/
structure Evaluation where
  should_continue : Bool
  adaptations : List Adaptation
  needs_retry : Option Bool

/-- `reflect` from `src/agent.js`.  The goals evaluation mutates
`context.state.goals_met`, so the updated context is returned alongside
the decision. -/
def reflect (context : AgentContext) : Evaluation × AgentContext :=
  let e := evaluateGoals context
  let evaluation := e.1
  let context := e.2
  if evaluation.goals_met then
    ({ should_continue := false, adaptations := [], needs_retry := none }, context)
  else if !evaluation.should_retry then
    ({ should_continue := false, adaptations := [], needs_retry := none }, context)
  else
    let results :=
      match context.reasoning with
      | some r => r.cost_analysis.cost_categories
      | none => []
    let adaptationAnalysis := adaptSearchBasedOnResults context results
    ({ should_continue := true,
       adaptations := adaptationAnalysis.suggested_adaptations,
       needs_retry := some adaptationAnalysis.needs_retry }, context)

/-- What one Perceive -> Reason -> Reflect pass of `agentTick` may write
back into the context, together with the reflection decision.  The three
stage functions read and write `perception`, `reasoning`, `errors`,
`memory` and the `confidence` / `completeness` / `goals_met` state
fields; none of them touches `iteration`, `max_iterations` or
`current_adaptations`, which only the loop itself manages. -/
structure PassResult where
  perception : Option Perception
  reasoning : Option Reasoning
  errors : List AgentError
  memory : AgentMemory
  confidence : ℚ
  completeness : ℚ
  goals_met : Bool
  evaluation : Evaluation

/-- Install the outcome of a successful pass into the context. -/
def applyPass (context : AgentContext) (result : PassResult) : AgentContext :=
  { context with
    perception := result.perception,
    reasoning := result.reasoning,
    errors := result.errors,
    memory := result.memory,
    state := { context.state with
      confidence := result.confidence,
      completeness := result.completeness,
      goals_met := result.goals_met } }

/-- Step 5 of `agentTick` (`agent.js` lines 314-317): apply the
adaptations that affect memory.  The source assigns `[]` to
`context.memory.failed_strategies` — a property that does not exist in
`createAgentContext` and that no other line of the repository reads;
in particular `failed_strategies_by_category`, the map `selectStrategy`
consults, is left untouched. -/
def applyAdaptations (adaptations : List Adaptation) (context : AgentContext) : AgentContext :=
  if Adaptation.alternative_category_approach ∈ adaptations then
    { context with memory := { context.memory with failed_strategies := some [] } }
  else context

/-- The `catch` block of the `agentTick` loop (`agent.js` lines 318-321):
record the error against the current iteration and advance the iteration
counter. -/
def tickCatch (context : AgentContext) (msg : String) : AgentContext :=
  let context := addError context "agent_tick"
    ("Iteration " ++ toString (context.state.iteration + 1) ++ " failed: " ++ msg) none
  { context with state := { context.state with iteration := context.state.iteration + 1 } }

/-- Step 4 bookkeeping of a successful pass: install the pass outcome
and store the adaptations the reflection decided in the state
(`context.state.current_adaptations = evaluation.adaptations`,
`agent.js` line 305). -/
def tickOkStep (context : AgentContext) (result : PassResult) : AgentContext :=
  let contextAfter := applyPass context result
  { contextAfter with
    state := { contextAfter.state with
      current_adaptations := result.evaluation.adaptations } }

/-- Step 5 of a continuing pass: `context.state.iteration++` followed by
the memory adaptation step (`agent.js` lines 312-317). -/
def tickNext (context : AgentContext) (result : PassResult) : AgentContext :=
  let contextAfter := tickOkStep context result
  let nextContext :=
    { contextAfter with
      state := { contextAfter.state with
        iteration := contextAfter.state.iteration + 1 } }
  applyAdaptations result.evaluation.adaptations nextContext

/-- The `while` loop of `agentTick`, with an explicit fuel argument (the
loop guard is `iteration < max_iterations` and every non-breaking round
increments `iteration`, so fuel `max_iterations − iteration` is exact —
this is proved below).  The second component counts the executed
Perceive -> Reason -> Reflect passes.  A pass is the collaborator-driven
function `pass`: `Except.ok` is a pass that ran to its reflection
decision, `Except.error` is a pass that threw anywhere inside. -/
def agentTickLoop (pass : AgentContext → Except String PassResult) :
    ℕ → AgentContext → AgentContext × ℕ
  | 0, context => (context, 0)
  | fuel + 1, context =>
    if context.state.iteration < context.state.max_iterations then
      match pass context with
      | Except.ok result =>
          if !result.evaluation.should_continue then
            (tickOkStep context result, 1)
          else
            let rest := agentTickLoop pass fuel (tickNext context result)
            (rest.1, rest.2 + 1)
      | Except.error msg =>
          let nextContext := tickCatch context msg
          if nextContext.state.iteration ≥ nextContext.state.max_iterations then
            (nextContext, 1)
          else
            let rest := agentTickLoop pass fuel nextContext
            (rest.1, rest.2 + 1)
    else (context, 0)

/-- `agentTick` from `src/agent.js`: create the context, run the loop,
finalize the metadata. -/
def agentTick (pass : AgentContext → Except String PassResult) (cityObj : CityObj) :
    AgentContext × ℕ :=
  let context := createAgentContext cityObj
  let r := agentTickLoop pass (context.state.max_iterations - context.state.iteration) context
  ({ r.1 with metadata := { completed := true } }, r.2)

/-- The concrete Perceive -> Reason -> Reflect pass assembled from the
stage embeddings, showing that the three stages fit the `PassResult`
interface used by the loop. -/
def stagesPass (cache : Option Perception)
    (search : Category → Except String CategoryPerception)
    (body : AgentContext → Except (String × AgentContext) (AgentContext × Reasoning))
    (context : AgentContext) : Except String PassResult :=
  let afterPerceive := perceive cache search context
  match reason body afterPerceive with
  | Except.error msg => Except.error msg
  | Except.ok afterReason =>
      let r := reflect afterReason
      Except.ok
        { perception := r.2.perception,
          reasoning := r.2.reasoning,
          errors := r.2.errors,
          memory := r.2.memory,
          confidence := r.2.state.confidence,
          completeness := r.2.state.completeness,
          goals_met := r.2.state.goals_met,
          evaluation := r.1 }

/-- A sample city entry (first of `CONFIG.cities`). -/
def lisbonCity : CityObj := { name := "Lisbon", country := "Portugal" }

/-- The rent category (first of `CONFIG.costCategories`). -/
def categoryRent : Category := { name := "rent_1br", displayName := "1BR Apartment Rent" }

/-- A context in which `reddit_local` has been recorded as failed for the
rent category. -/
def contextWithFailedReddit : AgentContext :=
  let base := createAgentContext lisbonCity
  { base with
    memory := { base.memory with
      failed_strategies_by_category := fun c =>
        if c = "rent_1br" then [SName.reddit_local] else [] } }

/-- A second-iteration context in which every catalog strategy has been
recorded as failed for the rent category. -/
def contextAllFailed : AgentContext :=
  let base := createAgentContext lisbonCity
  { base with
    state := { base.state with iteration := 1 },
    memory := { base.memory with
      failed_strategies_by_category := fun c =>
        if c = "rent_1br" then
          [SName.numbeo_focused, SName.expatistan_focused, SName.reddit_local,
           SName.multi_source, SName.government_stats, SName.expat_forums]
        else [] } }

/-- A second-iteration context in which `numbeo_focused` has been
recorded as failed for the rent category (the state right after an
iteration whose reflection suggested `alternative_category_approach`). -/
def contextAfterRentFailure : AgentContext :=
  let base := createAgentContext lisbonCity
  { base with
    state := { base.state with iteration := 1 },
    memory := { base.memory with
      failed_strategies_by_category := fun c =>
        if c = "rent_1br" then [SName.numbeo_focused] else [] } }

/-- The goal-arithmetic scenario of the spec: confidence 80,
completeness 0.85, default thresholds. -/
def goalArithmeticContext : AgentContext :=
  let base := createAgentContext { name := "X", country := "United States" }
  { base with
    state := { base.state with confidence := 80, completeness := mkRat 85 100 } }

/-- The retry-gating scenario of the spec: confidence 55,
completeness 0.5, iteration 1 of 3, default thresholds. -/
def retryGatingContext : AgentContext :=
  let base := createAgentContext { name := "Y", country := "United States" }
  { base with
    state := { base.state with
      confidence := 55, completeness := mkRat 5 10, iteration := 1 } }

/-- A minimal concrete perception bundle. -/
def samplePerception : Perception :=
  { city := "Lisbon", country := "Portugal",
    search_strategy := "adaptive_agentic",
    category_searches := [],
    metadata :=
      { total_organic_results := 0, average_data_quality_score := 0,
        categories_searched := 5, successful_categories := 0,
        data_source := "fresh_serp_calls", agent_iteration := 0 } }

/-- A fresh context that has perception data. -/
def contextWithPerception : AgentContext :=
  { createAgentContext lisbonCity with perception := some samplePerception }

/-- A reasoning-stage body that throws unexpectedly at once. -/
def throwingReasonBody :
    AgentContext → Except (String × AgentContext) (AgentContext × Reasoning) :=
  fun context => Except.error ("LLM call failed", context)

/-- A pass in which the retrieval collaborator throws on every call, so
every Perceive -> Reason -> Reflect pass dies with an exception. -/
def alwaysThrowingPass : AgentContext → Except String PassResult :=
  fun _ => Except.error "Search request failed"

/-- Five per-category results of which exactly two have confidence below
the low-confidence threshold 60. -/
def twoLowConfidenceResults : List CostCategoryResult :=
  [{ category := "1BR Apartment Rent", usd_amount := some 900, confidence := 40,
     strategy_used := some SName.multi_source, internet_speed_mbps := none },
   { category := "Monthly Groceries", usd_amount := some 300, confidence := 50,
     strategy_used := some SName.multi_source, internet_speed_mbps := none },
   { category := "Public Transportation Monthly Pass", usd_amount := some 40, confidence := 85,
     strategy_used := some SName.multi_source, internet_speed_mbps := none },
   { category := "Monthly Utilities", usd_amount := some 120, confidence := 90,
     strategy_used := some SName.multi_source, internet_speed_mbps := none },
   { category := "Internet Speed & Cost", usd_amount := some 35, confidence := 95,
     strategy_used := some SName.multi_source, internet_speed_mbps := some 100 }]

/-- Shorthand for a cleaned organic result. -/
def mkOrganic (title : String) (display_link : Option String) : OrganicResult :=
  { title := title, description := "", link := "", display_link := display_link }

/-- A bundle with 12 organic results, a knowledge panel, and 4
trusted-source results. -/
def richSearchBundle : CleanedSearch :=
  { organic :=
      [mkOrganic "r1" (some "www.numbeo.com"),
       mkOrganic "r2" (some "www.numbeo.com"),
       mkOrganic "r3" (some "www.expatistan.com"),
       mkOrganic "r4" (some "livingcost.org"),
       mkOrganic "r5" (some "reddit.com"),
       mkOrganic "r6" (some "reddit.com"),
       mkOrganic "r7" none,
       mkOrganic "r8" (some "example.com"),
       mkOrganic "r9" (some "example.com"),
       mkOrganic "r10" (some "example.com"),
       mkOrganic "r11" (some "example.com"),
       mkOrganic "r12" (some "example.com")],
    knowledge := some { description := "cost of living", facts := [] } }

/-- A context whose memory already holds one failed and one successful
strategy for the groceries category. -/
def seededMemoryContext : AgentContext :=
  let base := createAgentContext lisbonCity
  { base with
    memory := { base.memory with
      failed_strategies_by_category := fun c =>
        if c = "groceries" then [SName.expat_forums] else [],
      successful_strategies_by_category := fun c =>
        if c = "groceries" then [SName.numbeo_focused] else [] } }

/-- Claim C8: for every category, `selectStrategy` applied to a fresh
agent context — empty attempted/failed/successful memory and
iteration 0 — returns the designated fallback strategy `multi_source`. -/
theorem selectStrategy_fresh_returns_multi_source (cityObj : CityObj) (category : Category) :
    selectStrategy (createAgentContext cityObj) category = multi_source := rfl

/-- Claim C4: `evaluateGoals` computes `confidence_met`,
`completeness_met`, `goals_met` and `should_retry` exactly by the
threshold formulas; with confidence 80 and completeness 0.85 against the
default thresholds it reports goals met and no retry, and with
confidence 55, completeness 0.5 at iteration 1 of 3 it reports
`should_retry = true`. -/
theorem evaluateGoals_spec (context : AgentContext) :
    ((evaluateGoals context).1.confidence_met
        = decide (context.state.confidence ≥ context.goals.confidence_target)) ∧
    ((evaluateGoals context).1.completeness_met
        = decide (context.state.completeness ≥ context.goals.completeness_target)) ∧
    ((evaluateGoals context).1.goals_met
        = ((evaluateGoals context).1.confidence_met
            && (evaluateGoals context).1.completeness_met)) ∧
    ((evaluateGoals context).1.should_retry
        = (!(evaluateGoals context).1.goals_met
            && decide (context.state.iteration < context.state.max_iterations)
            && decide (context.state.confidence ≥ context.goals.min_acceptable_confidence))) ∧
    (evaluateGoals goalArithmeticContext).1.confidence_met = true ∧
    (evaluateGoals goalArithmeticContext).1.completeness_met = true ∧
    (evaluateGoals goalArithmeticContext).1.goals_met = true ∧
    (evaluateGoals goalArithmeticContext).1.should_retry = false ∧
    (evaluateGoals retryGatingContext).1.should_retry = true :=
  ⟨rfl, rfl, rfl, rfl, by decide, by decide, by decide, by decide, by decide⟩

/-- Claim C9 (implicit): on a cache hit, `perceive` only installs the
cached bundle (marked `cached_data`) into `context.perception` — state,
memory and errors are untouched; in particular `state.completeness` keeps
its prior value (0 on a fresh context), so the goal evaluation of that
iteration compares the stale completeness, not the category coverage of
the cached bundle, against the completeness target. -/
theorem perceive_cache_hit_frame (cachedPerception : Perception)
    (search : Category → Except String CategoryPerception)
    (context : AgentContext) (cityObj : CityObj) :
    (perceive (some cachedPerception) search context
        = { context with perception := some (markCached cachedPerception) }) ∧
    ((markCached cachedPerception).metadata.data_source = "cached_data") ∧
    ((perceive (some cachedPerception) search context).state = context.state) ∧
    ((perceive (some cachedPerception) search context).memory = context.memory) ∧
    ((perceive (some cachedPerception) search context).errors = context.errors) ∧
    ((perceive (some cachedPerception) search context).state.completeness
        = context.state.completeness) ∧
    ((createAgentContext cityObj).state.completeness = 0) ∧
    ((evaluateGoals (perceive (some cachedPerception) search context)).1.completeness_met
        = decide (context.state.completeness ≥ context.goals.completeness_target)) :=
  ⟨rfl, rfl, rfl, rfl, rfl, rfl, rfl, rfl⟩

/-- Helper: the memory adaptation step never changes the agent state. -/
theorem applyAdaptations_state (adaptations : List Adaptation) (context : AgentContext) :
    (applyAdaptations adaptations context).state = context.state := by
  unfold applyAdaptations
  split <;> rfl

/-- Claim C2 (refuted — this theorem documents what the code actually
does): the adaptation step of `agentTick` never changes
`failed_strategies_by_category` (nor anything else `selectStrategy`
reads); when the adaptation set contains `alternative_category_approach`
it only writes `[]` into the otherwise unused `failed_strategies`
property.  Concretely, after an iteration that failed `numbeo_focused`
for rent and decided `alternative_category_approach`, the next
call to `selectStrategy` in the next iteration still refuses to return
`numbeo_focused`. -/
theorem applyAdaptations_does_not_clear_failure_history
    (adaptations : List Adaptation) (context : AgentContext) :
    ((applyAdaptations adaptations context).memory.failed_strategies_by_category
        = context.memory.failed_strategies_by_category) ∧
    ((applyAdaptations adaptations context).memory.successful_strategies_by_category
        = context.memory.successful_strategies_by_category) ∧
    ((applyAdaptations adaptations context).memory.attempted_strategies
        = context.memory.attempted_strategies) ∧
    ((applyAdaptations adaptations context).state = context.state) ∧
    ((applyAdaptations [Adaptation.alternative_category_approach]
        contextAfterRentFailure).memory.failed_strategies = some []) ∧
    ((applyAdaptations [Adaptation.alternative_category_approach]
        contextAfterRentFailure).memory.failed_strategies_by_category "rent_1br"
        = [SName.numbeo_focused]) ∧
    ((selectStrategy
        (applyAdaptations [Adaptation.alternative_category_approach] contextAfterRentFailure)
        categoryRent).name ≠ SName.numbeo_focused) := by
  refine ⟨?_, ?_, ?_, applyAdaptations_state adaptations context, by decide, by decide, by decide⟩
  all_goals unfold applyAdaptations
  all_goals split <;> rfl

/-- Claim C7: the evidence quality score is
`min(min(5·organic, 50) + (20 if knowledge panel) + min(10·trusted, 30), 100)`,
hence always within [0, 100]; a bundle with 12 organic results, a
knowledge panel and 4 trusted-source results scores exactly 100. -/
theorem calculateDataQualityScore_spec (searchData : CleanedSearch) :
    (calculateDataQualityScore searchData
        = min (min (5 * searchData.organic.length) 50
            + (if searchData.knowledge.isSome then 20 else 0)
            + min (10 * (searchData.organic.filter isRelevantSource).length) 30) 100) ∧
    0 ≤ calculateDataQualityScore searchData ∧
    calculateDataQualityScore searchData ≤ 100 ∧
    calculateDataQualityScore richSearchBundle = 100 := by
  refine ⟨?_, Nat.zero_le _, ?_, by decide⟩
  · simp [calculateDataQualityScore, Nat.mul_comm]
  · exact Nat.min_le_right _ _

/-- Claim C6: the derived adaptation set contains `expand_search_terms`
iff strictly more than 2 results scored below 60, and contains
`alternative_category_approach` and `try_local_sources` iff at least one
result scored below 60; with exactly two low-confidence results the set
is exactly those two tags. -/
theorem adaptSearchBasedOnResults_spec (context : AgentContext)
    (results : List CostCategoryResult) :
    (Adaptation.expand_search_terms
        ∈ (adaptSearchBasedOnResults context results).suggested_adaptations
      ↔ 2 < (results.filter fun r => decide (r.confidence < 60)).length) ∧
    (Adaptation.alternative_category_approach
        ∈ (adaptSearchBasedOnResults context results).suggested_adaptations
      ↔ 1 ≤ (results.filter fun r => decide (r.confidence < 60)).length) ∧
    (Adaptation.try_local_sources
        ∈ (adaptSearchBasedOnResults context results).suggested_adaptations
      ↔ 1 ≤ (results.filter fun r => decide (r.confidence < 60)).length) ∧
    ((adaptSearchBasedOnResults (createAgentContext lisbonCity)
        twoLowConfidenceResults).suggested_adaptations
      = [Adaptation.alternative_category_approach, Adaptation.try_local_sources]) := by
  refine ⟨?_, ?_, ?_, by decide⟩ <;>
  · simp only [adaptSearchBasedOnResults, generateAdaptations]
    split_ifs with h1 h2 <;> simp_all <;> omega

/-- Claim C10 (implicit): each `recordStrategy` call appends exactly one
log entry, adds the name to exactly one of the per-category
successful/failed lists and only when absent, removes nothing from
either map, and preserves duplicate-freeness of both lists. -/
theorem recordStrategy_spec (context : AgentContext) (strategyName : SName)
    (category : String) (success : Bool) (confidence : ℚ) :
    ((recordStrategy context strategyName category success confidence).memory.attempted_strategies
        = context.memory.attempted_strategies ++
          [{ strategy := strategyName, category := category, success := success,
             confidence := confidence, iteration := context.state.iteration }]) ∧
    (∀ c, (recordStrategy context strategyName category success confidence).memory.successful_strategies_by_category c
        = if success = true ∧ c = category then
            (if strategyName ∈ context.memory.successful_strategies_by_category category
             then context.memory.successful_strategies_by_category category
             else context.memory.successful_strategies_by_category category ++ [strategyName])
          else context.memory.successful_strategies_by_category c) ∧
    (∀ c, (recordStrategy context strategyName category success confidence).memory.failed_strategies_by_category c
        = if success = false ∧ c = category then
            (if strategyName ∈ context.memory.failed_strategies_by_category category
             then context.memory.failed_strategies_by_category category
             else context.memory.failed_strategies_by_category category ++ [strategyName])
          else context.memory.failed_strategies_by_category c) ∧
    (∀ c x, x ∈ context.memory.failed_strategies_by_category c →
        x ∈ (recordStrategy context strategyName category success confidence).memory.failed_strategies_by_category c) ∧
    (∀ c x, x ∈ context.memory.successful_strategies_by_category c →
        x ∈ (recordStrategy context strategyName category success confidence).memory.successful_strategies_by_category c) ∧
    (∀ c, (context.memory.failed_strategies_by_category c).Nodup →
        ((recordStrategy context strategyName category success confidence).memory.failed_strategies_by_category c).Nodup) ∧
    (∀ c, (context.memory.successful_strategies_by_category c).Nodup →
        ((recordStrategy context strategyName category success confidence).memory.successful_strategies_by_category c).Nodup) := by
  have hs : ∀ c, (recordStrategy context strategyName category success confidence).memory.successful_strategies_by_category c
      = if success = true ∧ c = category then
          (if strategyName ∈ context.memory.successful_strategies_by_category category
           then context.memory.successful_strategies_by_category category
           else context.memory.successful_strategies_by_category category ++ [strategyName])
        else context.memory.successful_strategies_by_category c := by
    intro c
    unfold recordStrategy
    cases success <;> simp <;> split <;> simp_all
  have hf : ∀ c, (recordStrategy context strategyName category success confidence).memory.failed_strategies_by_category c
      = if success = false ∧ c = category then
          (if strategyName ∈ context.memory.failed_strategies_by_category category
           then context.memory.failed_strategies_by_category category
           else context.memory.failed_strategies_by_category category ++ [strategyName])
        else context.memory.failed_strategies_by_category c := by
    intro c
    unfold recordStrategy
    cases success <;> simp <;> split <;> simp_all
  have hgrow : ∀ (old : List SName),
      (if strategyName ∈ old then old else old ++ [strategyName]).Nodup ∨ ¬ old.Nodup := by
    intro old
    by_cases hN : old.Nodup
    · left
      split
      · exact hN
      · next hmem => simp [List.nodup_append, hN, hmem]
    · right; exact hN
  refine ⟨?_, hs, hf, ?_, ?_, ?_, ?_⟩
  · unfold recordStrategy
    cases success <;> simp
  · intro c x hx
    rw [hf c]
    split
    · next h =>
        rw [h.2] at hx
        split <;> simp [hx]
    · exact hx
  · intro c x hx
    rw [hs c]
    split
    · next h =>
        rw [h.2] at hx
        split <;> simp [hx]
    · exact hx
  · intro c hN
    rw [hf c]
    split
    · next h =>
        rw [h.2] at hN
        rcases hgrow (context.memory.failed_strategies_by_category category) with hg | hg
        · exact hg
        · exact absurd hN hg
    · exact hN
  · intro c hN
    rw [hs c]
    split
    · next h =>
        rw [h.2] at hN
        rcases hgrow (context.memory.successful_strategies_by_category category) with hg | hg
        · exact hg
        · exact absurd hN hg
    · exact hN

/-- Witness for `recordStrategy_spec` at a concrete seeded context: a
failed `government_stats` record for groceries keeps the previously
failed `expat_forums` and the previously successful `numbeo_focused`,
and the failed list stays duplicate-free. -/
theorem recordStrategy_spec_witness :
    SName.expat_forums ∈ (recordStrategy seededMemoryContext SName.government_stats
        "groceries" false 30).memory.failed_strategies_by_category "groceries" ∧
    ((recordStrategy seededMemoryContext SName.government_stats
        "groceries" false 30).memory.failed_strategies_by_category "groceries").Nodup ∧
    SName.numbeo_focused ∈ (recordStrategy seededMemoryContext SName.government_stats
        "groceries" false 30).memory.successful_strategies_by_category "groceries" :=
  ⟨(recordStrategy_spec seededMemoryContext SName.government_stats "groceries" false 30).2.2.2.1
      "groceries" SName.expat_forums (by decide),
   (recordStrategy_spec seededMemoryContext SName.government_stats "groceries" false 30).2.2.2.2.2.1
      "groceries" (by decide),
   (recordStrategy_spec seededMemoryContext SName.government_stats "groceries" false 30).2.2.2.2.1
      "groceries" SName.numbeo_focused (by decide)⟩

/-- Helper: `selectStrategy` returns either a member of the available
(not-failed) set or the designated fallback `multi_source`. -/
theorem selectStrategy_mem_or_fallback (context : AgentContext) (category : Category) :
    selectStrategy context category ∈ availableStrategies context category.name ∨
    selectStrategy context category = multi_source := by
  unfold selectStrategy
  by_cases hlen : (availableStrategies context category.name).length = 0
  · simp [hlen]
  · rw [if_neg hlen]
    cases hfind : (availableStrategies context category.name).find?
        (fun strategy => decide (strategy.name
          ∈ context.memory.successful_strategies_by_category category.name)) with
    | some successfulStrategy =>
        simp only [hfind]
        exact Or.inl (List.mem_of_find?_eq_some hfind)
    | none =>
        simp only [hfind]
        by_cases hiter : context.state.iteration = 0
        · simp [hiter]
        · rw [if_neg hiter]
          cases horder : strategyOrder.find?
              (fun strategy => decide (strategy ∈ availableStrategies context category.name)) with
          | some nextStrategy =>
              simp only [horder]
              have hp := List.find?_some horder
              exact Or.inl (of_decide_eq_true hp)
          | none =>
              simp only [horder]
              left
              cases havail : availableStrategies context category.name with
              | nil => rw [havail] at hlen; simp at hlen
              | cons a t => simp

/-- Claim C1: once a strategy name other than the fallback is in the
failed set of a category, `selectStrategy` never returns it for that
category (in any such memory state, reachable or not); and whenever the
eligible set is empty, the fallback `multi_source` is returned. -/
theorem selectStrategy_excludes_failed (context : AgentContext) (category : Category)
    (strategyName : SName)
    (hfailed : strategyName ∈ context.memory.failed_strategies_by_category category.name)
    (hnotFallback : strategyName ≠ SName.multi_source) :
    (selectStrategy context category).name ≠ strategyName ∧
    (availableStrategies context category.name = [] →
      selectStrategy context category = multi_source) := by
  have hmem : ∀ s ∈ availableStrategies context category.name, s.name ≠ strategyName := by
    intro s hs heq
    have h := List.mem_filter.mp hs
    exact (of_decide_eq_true h.2) (heq ▸ hfailed)
  constructor
  · rcases selectStrategy_mem_or_fallback context category with h | h
    · exact hmem _ h
    · rw [h]
      intro heq
      exact hnotFallback heq.symm
  · intro hEmpty
    unfold selectStrategy
    simp [hEmpty]

/-- Witness for `selectStrategy_excludes_failed`: with `reddit_local`
failed for rent it is never selected, and with all six strategies failed
for rent the fallback is selected. -/
theorem selectStrategy_excludes_failed_witness :
    (selectStrategy contextWithFailedReddit categoryRent).name ≠ SName.reddit_local ∧
    selectStrategy contextAllFailed categoryRent = multi_source :=
  ⟨(selectStrategy_excludes_failed contextWithFailedReddit categoryRent SName.reddit_local
      (by decide) (by decide)).1,
   (selectStrategy_excludes_failed contextAllFailed categoryRent SName.reddit_local
      (by decide) (by decide)).2 (by decide)⟩

/-- Claim C5: when perception data is present and the reasoning stage
body throws, `reason` returns (does not propagate) a context whose
reasoning record is the degraded fallback: zero total confidence, empty
cost categories, zero remote-work score, and the error message
attached. -/
theorem reason_catches_stage_failure
    (body : AgentContext → Except (String × AgentContext) (AgentContext × Reasoning))
    (context contextAtThrow : AgentContext) (msg : String)
    (hperception : context.perception.isSome = true)
    (hbody : body context = Except.error (msg, contextAtThrow)) :
    (reason body context
        = Except.ok
          { (addError contextAtThrow "reasoning" ("Reasoning failure: " ++ msg) none) with
            reasoning := some (fallbackReasoning
              (addError contextAtThrow "reasoning" ("Reasoning failure: " ++ msg) none) msg) }) ∧
    (∀ c m, (fallbackReasoning c m).cost_analysis.total_confidence = 0 ∧
        (fallbackReasoning c m).cost_analysis.cost_categories = [] ∧
        (fallbackReasoning c m).remote_work_score = 0 ∧
        (fallbackReasoning c m).error = some m) := by
  refine ⟨?_, fun c m => ⟨rfl, rfl, rfl, rfl⟩⟩
  cases hp : context.perception with
  | none => rw [hp] at hperception; simp at hperception
  | some p =>
      unfold reason
      rw [hp, hbody]
      rfl

/-- Witness for `reason_catches_stage_failure` at a concrete context and
an immediately-throwing body. -/
theorem reason_catches_stage_failure_witness :
    (reason throwingReasonBody contextWithPerception
        = Except.ok
          { (addError contextWithPerception "reasoning"
              ("Reasoning failure: " ++ "LLM call failed") none) with
            reasoning := some (fallbackReasoning
              (addError contextWithPerception "reasoning"
                ("Reasoning failure: " ++ "LLM call failed") none) "LLM call failed") }) ∧
    (∀ c m, (fallbackReasoning c m).cost_analysis.total_confidence = 0 ∧
        (fallbackReasoning c m).cost_analysis.cost_categories = [] ∧
        (fallbackReasoning c m).remote_work_score = 0 ∧
        (fallbackReasoning c m).error = some m) :=
  reason_catches_stage_failure throwingReasonBody contextWithPerception
    contextWithPerception "LLM call failed" rfl rfl

/-- Helper: a continuing pass advances the iteration by exactly one and
keeps the bound. -/
theorem tickNext_state (context : AgentContext) (result : PassResult) :
    (tickNext context result).state.iteration = context.state.iteration + 1 ∧
    (tickNext context result).state.max_iterations = context.state.max_iterations := by
  unfold tickNext
  refine ⟨?_, ?_⟩ <;> rw [applyAdaptations_state] <;> rfl

/-- Helper: the catch branch advances the iteration by exactly one and
keeps the bound. -/
theorem tickCatch_state (context : AgentContext) (msg : String) :
    (tickCatch context msg).state.iteration = context.state.iteration + 1 ∧
    (tickCatch context msg).state.max_iterations = context.state.max_iterations :=
  ⟨rfl, rfl⟩

/-- Helper: the loop never executes more passes than it has fuel. -/
theorem agentTickLoop_count_le (pass : AgentContext → Except String PassResult) :
    ∀ (fuel : ℕ) (context : AgentContext), (agentTickLoop pass fuel context).2 ≤ fuel := by
  intro fuel
  induction fuel with
  | zero => intro context; exact Nat.le_refl 0
  | succ n ih =>
      intro context
      unfold agentTickLoop
      split
      · split
        · dsimp only
          split
          · exact Nat.succ_le_succ (Nat.zero_le n)
          · exact Nat.succ_le_succ (ih _)
        · dsimp only
          split
          · exact Nat.succ_le_succ (Nat.zero_le n)
          · exact Nat.succ_le_succ (ih _)
      · exact Nat.zero_le _

/-- Helper: fuel `max_iterations − iteration` is exact — any larger fuel
computes the same result, which is the termination content of the
`while` loop. -/
theorem agentTickLoop_fuel (pass : AgentContext → Except String PassResult) :
    ∀ (fuel : ℕ) (context : AgentContext),
      context.state.max_iterations - context.state.iteration ≤ fuel →
      agentTickLoop pass fuel context
        = agentTickLoop pass (context.state.max_iterations - context.state.iteration) context := by
  intro fuel
  induction fuel with
  | zero =>
      intro context h
      rw [Nat.le_zero.mp h]
  | succ n ih =>
      intro context h
      by_cases hg : context.state.iteration < context.state.max_iterations
      · have hk : context.state.max_iterations - context.state.iteration
            = (context.state.max_iterations - (context.state.iteration + 1)) + 1 := by omega
        rw [hk]
        unfold agentTickLoop
        rw [if_pos hg, if_pos hg]
        cases hp : pass context with
        | ok result =>
            dsimp only
            by_cases hc : (!result.evaluation.should_continue) = true
            · rw [if_pos hc, if_pos hc]
            · rw [if_neg hc, if_neg hc]
              have hb : (tickNext context result).state.max_iterations
                  - (tickNext context result).state.iteration ≤ n := by
                rw [(tickNext_state context result).1, (tickNext_state context result).2]
                omega
              rw [ih (tickNext context result) hb, (tickNext_state context result).1,
                (tickNext_state context result).2]
        | error msg =>
            dsimp only
            by_cases hstop : (tickCatch context msg).state.iteration
                ≥ (tickCatch context msg).state.max_iterations
            · rw [if_pos hstop, if_pos hstop]
            · rw [if_neg hstop, if_neg hstop]
              have hb : (tickCatch context msg).state.max_iterations
                  - (tickCatch context msg).state.iteration ≤ n := by
                rw [(tickCatch_state context msg).1, (tickCatch_state context msg).2]
                omega
              rw [ih (tickCatch context msg) hb, (tickCatch_state context msg).1,
                (tickCatch_state context msg).2]
      · have h0 : context.state.max_iterations - context.state.iteration = 0 := by omega
        rw [h0]
        unfold agentTickLoop
        rw [if_neg hg]

/-- Claim C3: for every city and every behaviour of the collaborators,
`agentTick` terminates with a finalized context after at most
`max_iterations = 3` passes; any extra fuel computes the same loop
result; an exception inside a pass advances the iteration counter and
records one error instead of aborting the agent; and with a pass whose
retrieval throws on every call the loop still stops, at iteration 3
after exactly 3 passes. -/
theorem agentTick_terminates (pass : AgentContext → Except String PassResult)
    (cityObj : CityObj) :
    ((agentTick pass cityObj).1.metadata.completed = true) ∧
    ((agentTick pass cityObj).2 ≤ 3) ∧
    (∀ extra : ℕ,
      agentTickLoop pass (3 + extra) (createAgentContext cityObj)
        = agentTickLoop pass 3 (createAgentContext cityObj)) ∧
    (∀ (context : AgentContext) (msg : String),
      (tickCatch context msg).state.iteration = context.state.iteration + 1 ∧
      (tickCatch context msg).errors.length = context.errors.length + 1) ∧
    ((agentTick alwaysThrowingPass cityObj).1.state.iteration = 3) ∧
    ((agentTick alwaysThrowingPass cityObj).2 = 3) := by
  refine ⟨rfl, ?_, ?_, ?_, rfl, rfl⟩
  · exact agentTickLoop_count_le pass 3 (createAgentContext cityObj)
  · intro extra
    exact agentTickLoop_fuel pass (3 + extra) (createAgentContext cityObj)
      (show (3 : ℕ) - 0 ≤ 3 + extra by omega)
  · intro context msg
    exact ⟨rfl, by simp [tickCatch, addError]⟩
